import Mathlib

/-!
Verification of the `sim_and_scat` repository (two source files:
`setup.py` and `notebooks_plain/plot_style.py`) against its
natural-language specification.

The repository is purely declarative: a packaging manifest and a flat
table of matplotlib style assignments.  We embed both shallowly:

* `plot_style.py` is a sequence of writes into matplotlib's global
  `rcParams` dictionary.  We model the configuration as a total map
  `String → RCVal` and each `mpl.rcParams[k] = v` line as a pointwise
  functional update (`setParam`); the whole script is `applyStyle`,
  a left fold of the updates in source order over `styleTable`.
* `setup.py` opens `README.md`, reads it, and calls `setup(...)` with
  literal metadata and two dependency lists.  We model the filesystem
  as `String → Option String` and the script as `runSetup`, which
  fails exactly when the read fails and otherwise produces the
  `Manifest` record built by `sim_and_scat_setup`.
-/

/-- Values stored in matplotlib's `rcParams`: numbers, strings,
booleans, an RGB tuple such as `(0.8, 0.8, 0.8)`, and a numeric list
such as `[1, 1, 1]`. -/
inductive RCVal where
  | num  : ℚ → RCVal
  | str  : String → RCVal
  | bool : Bool → RCVal
  | rgb  : ℚ → ℚ → ℚ → RCVal
  | nums : List ℚ → RCVal
deriving DecidableEq

/-- A matplotlib configuration: a total map from option name to value
(`mpl.rcParams` holds a default for every key). -/
def RCConfig : Type := String → RCVal

/-- One assignment `mpl.rcParams[k] = v`: pointwise update of the
global configuration. -/
def setParam (cfg : RCConfig) (k : String) (v : RCVal) : RCConfig :=
  fun q => if q = k then v else cfg q

/-- The style table of `notebooks_plain/plot_style.py`, as the ordered
list of `(key, value)` pairs assigned on lines 3-18, in source order. -/
def styleTable : List (String × RCVal) :=
  [ ("xtick.labelsize",    RCVal.num 16),
    ("ytick.labelsize",    RCVal.num 16),
    ("axes.facecolor",     RCVal.str "w"),
    ("lines.linewidth",    RCVal.num 4),
    ("axes.grid",          RCVal.bool true),
    ("grid.color",         RCVal.rgb 0.8 0.8 0.8),
    ("xtick.top",          RCVal.bool false),
    ("xtick.bottom",       RCVal.bool true),
    ("ytick.left",         RCVal.bool true),
    ("grid.linestyle",     RCVal.str "--"),
    ("legend.fontsize",    RCVal.num 12),
    ("legend.facecolor",   RCVal.nums [1, 1, 1]),
    ("legend.framealpha",  RCVal.num 0.75),
    ("axes.labelsize",     RCVal.num 16),
    ("axes.linewidth",     RCVal.num 1),
    ("axes.edgecolor",     RCVal.str "k") ]

/-- The keys assigned by the style script, in source order. -/
def styleKeys : List String := styleTable.map Prod.fst

/-- Running `plot_style.py`: the sixteen assignments applied in source
order to the global configuration. -/
def applyStyle (cfg : RCConfig) : RCConfig :=
  styleTable.foldl (fun c kv => setParam c kv.1 kv.2) cfg

/-- A concrete configuration used to instantiate universally
quantified statements. -/
def cfg0 : RCConfig := fun _ => RCVal.num 0

theorem styleKeys_eq :
    styleKeys =
      [ "xtick.labelsize", "ytick.labelsize", "axes.facecolor",
        "lines.linewidth", "axes.grid", "grid.color", "xtick.top",
        "xtick.bottom", "ytick.left", "grid.linestyle",
        "legend.fontsize", "legend.facecolor", "legend.framealpha",
        "axes.labelsize", "axes.linewidth", "axes.edgecolor" ] := rfl

/-- Helper: reading back any assigned key after running the script
returns the value the script assigned to it. -/
theorem applyStyle_roundtrip (cfg : RCConfig) (kv : String × RCVal)
    (h : kv ∈ styleTable) : applyStyle cfg kv.1 = kv.2 := by
  simp only [styleTable, List.mem_cons, List.not_mem_nil, or_false] at h
  rcases h with rfl|rfl|rfl|rfl|rfl|rfl|rfl|rfl|rfl|rfl|rfl|rfl|rfl|rfl|rfl|rfl <;>
    simp [applyStyle, styleTable, setParam]

/-- Helper: a key the script never assigns is left unchanged. -/
theorem applyStyle_frame (cfg : RCConfig) (q : String)
    (h : q ∉ styleKeys) : applyStyle cfg q = cfg q := by
  simp only [styleKeys_eq, List.mem_cons, List.not_mem_nil, or_false, not_or] at h
  obtain ⟨h1, h2, h3, h4, h5, h6, h7, h8, h9, h10, h11, h12, h13, h14, h15, h16⟩ := h
  simp [applyStyle, styleTable, setParam, h1, h2, h3, h4, h5, h6, h7, h8,
    h9, h10, h11, h12, h13, h14, h15, h16]

/-- Helper: evaluating `applyStyle` at a point is a chain of string
comparisons against the sixteen assigned keys, falling through to the
initial configuration; the result at an assigned key does not depend
on the initial configuration. -/
theorem applyStyle_apply (cfg cfg' : RCConfig) (q : String)
    (h : ∀ s, s ∉ styleKeys → cfg s = cfg' s) :
    applyStyle cfg q = applyStyle cfg' q := by
  by_cases hq : q ∈ styleKeys
  · simp only [styleKeys_eq, List.mem_cons, List.not_mem_nil, or_false] at hq
    rcases hq with rfl|rfl|rfl|rfl|rfl|rfl|rfl|rfl|rfl|rfl|rfl|rfl|rfl|rfl|rfl|rfl <;>
      simp [applyStyle, styleTable, setParam]
  · rw [applyStyle_frame cfg q hq, applyStyle_frame cfg' q hq]
    exact h q hq

/-- Helper: applying the style table twice equals applying it once. -/
theorem applyStyle_idem_aux (cfg : RCConfig) :
    applyStyle (applyStyle cfg) = applyStyle cfg := by
  funext q
  exact applyStyle_apply (applyStyle cfg) cfg q
    (fun s hs => applyStyle_frame cfg s hs)

/-- The record handed to `setuptools.setup` by `setup.py`: package
metadata and the two dependency lists. -/
structure Manifest where
  name : String
  version : String
  description : String
  author : String
  author_email : String
  url : String
  setup_requires : List String
  install_requires : List String
  long_description : String
  long_description_content_type : String
deriving DecidableEq

/-- The `setup_requires` list of `setup.py`, in source order. -/
def setup_requires : List String :=
  ["numpy", "scipy", "pylj", "matplotlib", "jupyter"]

/-- The `install_requires` list of `setup.py`, in source order. -/
def install_requires : List String :=
  ["numpy", "scipy", "pylj", "matplotlib", "jupyter"]

/-- The `setup(...)` call of `setup.py`, with the long description
read from `README.md` passed in as `ld`. -/
def sim_and_scat_setup (ld : String) : Manifest :=
  { name := "sim_and_scat",
    version := "0.0.1",
    description := "Python package to build appropriate environment for running the sim_and_scat open educational resource",
    author := "Andrew R. McCluskey, Adam R. Symington, James Grant, Benjamin J. Morgan, Stephen C. Parker, and Karen J. Edler",
    author_email := "a.r.mccluskey@bath.ac.uk, k.edler@bath.ac.uk",
    url := "https://arm61.github.io/sim_and_scat",
    setup_requires := setup_requires,
    install_requires := install_requires,
    long_description := ld,
    long_description_content_type := "text/markdown" }

/-- Running `setup.py` against a filesystem (a map from file name to
contents, `none` when the file is absent): the script first reads
`README.md` — raising if it is missing — and then calls `setup`. -/
def runSetup (fs : String → Option String) : Except String Manifest :=
  match fs "README.md" with
  | some ld => Except.ok (sim_and_scat_setup ld)
  | none => Except.error "FileNotFoundError: README.md"

/-- Whether an `Except` computation completed without raising. -/
def exOk : Except String α → Bool
  | Except.ok _ => true
  | Except.error _ => false

/-- A character legal in a package-name token: ASCII letter, digit,
hyphen, underscore or dot. -/
def legalNameChar (c : Char) : Bool :=
  c.isAlphanum || c = '-' || c = '_' || c = '.'

/-- A syntactically valid package-name token: non-empty and made only
of characters legal in a package name. -/
def validPackageName (s : String) : Bool :=
  (s != "") && s.data.all legalNameChar

/-- Running `plot_style.py` against a plotting library that validates
each assignment: `valid k v` says whether the library accepts value
`v` for option `k`.  Each accepted assignment is applied in order; the
first rejected one raises. -/
def applyAssignments (valid : String → RCVal → Bool) :
    List (String × RCVal) → RCConfig → Except String RCConfig
  | [], cfg => Except.ok cfg
  | kv :: rest, cfg =>
    if valid kv.1 kv.2 then applyAssignments valid rest (setParam cfg kv.1 kv.2)
    else Except.error kv.1

/-- Running the style script under a validating plotting library. -/
def runPlotStyle (valid : String → RCVal → Bool) (cfg : RCConfig) :
    Except String RCConfig :=
  applyAssignments valid styleTable cfg

/-- Helper: the style script completes without raising exactly when
the library accepts every assignment in the table. -/
theorem applyAssignments_ok (valid : String → RCVal → Bool) :
    ∀ (t : List (String × RCVal)) (cfg : RCConfig),
      exOk (applyAssignments valid t cfg) =
        t.all (fun kv => valid kv.1 kv.2) := by
  intro t
  induction t with
  | nil => intro cfg; rfl
  | cons kv rest ih =>
    intro cfg
    by_cases h : valid kv.1 kv.2 = true
    · simp [applyAssignments, h, ih]
    · simp [applyAssignments, h, exOk]

/-- Modelled from the spec: the second, near-duplicate setup script of
the repository, which is not under `src/`.  Per the spec (sections 6
and 9), its dependency list includes a conda dependency and a notebook
package where the script under `src/` substitutes `jupyter`. -/
def other_setup_install_requires : List String :=
  ["numpy", "scipy", "pylj", "matplotlib", "conda", "notebook"]

/-- Modelled from the spec: running the second setup script.  Per the
spec (section 9) it performs no long-description file read, so it
succeeds on any filesystem, with the same metadata as the script under
`src/` apart from its dependency lists. -/
def runOtherSetup (_fs : String → Option String) : Except String Manifest :=
  Except.ok { sim_and_scat_setup "" with
              setup_requires := other_setup_install_requires,
              install_requires := other_setup_install_requires }

/-- C1: after applying the style table, each of the sixteen named
style keys holds exactly the literal value assigned in the script,
whatever the prior configuration. -/
theorem styleTable_roundtrips_each_literal (cfg : RCConfig) :
    applyStyle cfg "xtick.labelsize" = RCVal.num 16
    ∧ applyStyle cfg "ytick.labelsize" = RCVal.num 16
    ∧ applyStyle cfg "axes.facecolor" = RCVal.str "w"
    ∧ applyStyle cfg "lines.linewidth" = RCVal.num 4
    ∧ applyStyle cfg "axes.grid" = RCVal.bool true
    ∧ applyStyle cfg "grid.color" = RCVal.rgb 0.8 0.8 0.8
    ∧ applyStyle cfg "xtick.top" = RCVal.bool false
    ∧ applyStyle cfg "xtick.bottom" = RCVal.bool true
    ∧ applyStyle cfg "ytick.left" = RCVal.bool true
    ∧ applyStyle cfg "grid.linestyle" = RCVal.str "--"
    ∧ applyStyle cfg "legend.fontsize" = RCVal.num 12
    ∧ applyStyle cfg "legend.facecolor" = RCVal.nums [1, 1, 1]
    ∧ applyStyle cfg "legend.framealpha" = RCVal.num 0.75
    ∧ applyStyle cfg "axes.labelsize" = RCVal.num 16
    ∧ applyStyle cfg "axes.linewidth" = RCVal.num 1
    ∧ applyStyle cfg "axes.edgecolor" = RCVal.str "k" := by
  simp [applyStyle, styleTable, setParam]

/-- C2: the two packaging manifests have inconsistent dependency
lists — the one missing from `src/` (modelled from the spec) includes
a conda dependency and a notebook package, while the one under `src/`
substitutes `jupyter` and adds a long-description read (so it fails on
a filesystem with no `README.md`, while the other does not). -/
theorem setup_scripts_inconsistent :
    other_setup_install_requires ≠ install_requires
    ∧ "conda" ∈ other_setup_install_requires
    ∧ "notebook" ∈ other_setup_install_requires
    ∧ "jupyter" ∉ other_setup_install_requires
    ∧ "jupyter" ∈ install_requires
    ∧ "conda" ∉ install_requires
    ∧ "notebook" ∉ install_requires
    ∧ exOk (runSetup fun _ => none) = false
    ∧ exOk (runOtherSetup fun _ => none) = true := by
  refine ⟨by decide, by decide, by decide, by decide, by decide,
    by decide, by decide, rfl, rfl⟩

/-- C3 counterexample: the style table does not consist of
(approximately) 18 key/value pairs — it has exactly 16. -/
theorem styleTable_not_18_pairs :
    styleTable.length = 16 ∧ styleTable.length ≠ 18 := by decide

/-- C3 (amended): the style table applied to the global configuration
consists of exactly 16 key/value pairs, each of which round-trips
unchanged after application. -/
theorem styleTable_16_pairs_roundtrip :
    styleTable.length = 16
    ∧ ∀ (cfg : RCConfig), ∀ kv ∈ styleTable, applyStyle cfg kv.1 = kv.2 :=
  ⟨by decide, fun cfg kv h => applyStyle_roundtrip cfg kv h⟩

theorem styleTable_16_pairs_roundtrip_witness :
    styleTable.length = 16 ∧ applyStyle cfg0 "xtick.labelsize" = RCVal.num 16 :=
  ⟨styleTable_16_pairs_roundtrip.1,
    styleTable_16_pairs_roundtrip.2 cfg0 ("xtick.labelsize", RCVal.num 16)
      (by simp [styleTable])⟩

/-- C4 counterexample: tick visibility is not set for each side — the
script sets `xtick.top`, `xtick.bottom` and `ytick.left`, but never
sets `ytick.right`. -/
theorem ytick_right_not_set :
    "xtick.top" ∈ styleKeys ∧ "xtick.bottom" ∈ styleKeys
    ∧ "ytick.left" ∈ styleKeys ∧ "ytick.right" ∉ styleKeys := by decide

/-- C4 (amended): the set of named options applied to the plotting
library's global style object is exactly the sixteen listed keys;
tick visibility is set for the x-axis top and bottom sides and the
y-axis left side only, not for the y-axis right side. -/
theorem styleKeys_exact :
    styleKeys =
      [ "xtick.labelsize", "ytick.labelsize", "axes.facecolor",
        "lines.linewidth", "axes.grid", "grid.color", "xtick.top",
        "xtick.bottom", "ytick.left", "grid.linestyle",
        "legend.fontsize", "legend.facecolor", "legend.framealpha",
        "axes.labelsize", "axes.linewidth", "axes.edgecolor" ]
    ∧ "ytick.right" ∉ styleKeys := by decide

/-- C5: the packaging manifest declares a non-empty package name and a
non-empty version string, whatever the long description read from
`README.md`. -/
theorem manifest_name_version_nonempty (ld : String) :
    (sim_and_scat_setup ld).name ≠ "" ∧ (sim_and_scat_setup ld).version ≠ "" := by
  refine ⟨?_, ?_⟩ <;> simp [sim_and_scat_setup]

/-- C6: every dependency name in the manifest's install-time
dependency list is a syntactically valid package-name token. -/
theorem install_requires_names_valid (d : String)
    (h : d ∈ install_requires) : validPackageName d = true := by
  simp only [install_requires, List.mem_cons, List.not_mem_nil, or_false] at h
  rcases h with rfl|rfl|rfl|rfl|rfl <;> decide

theorem install_requires_names_valid_witness :
    "numpy" ∈ install_requires ∧ validPackageName "numpy" = true :=
  ⟨by decide, install_requires_names_valid "numpy" (by decide)⟩

/-- C7: the packaging script raises exactly when the underlying read
of `README.md` fails, and the style script raises exactly when the
plotting library rejects one of its assignments; otherwise both
complete without error. -/
theorem scripts_error_iff_underlying_fails :
    (∀ fs : String → Option String,
      exOk (runSetup fs) = true ↔ fs "README.md" ≠ none)
    ∧ ∀ (valid : String → RCVal → Bool) (cfg : RCConfig),
        exOk (runPlotStyle valid cfg) = true ↔
          styleTable.all (fun kv => valid kv.1 kv.2) = true := by
  constructor
  · intro fs
    cases h : fs "README.md" <;> simp [runSetup, h, exOk]
  · intro valid cfg
    rw [runPlotStyle, applyAssignments_ok]

theorem scripts_error_iff_underlying_fails_witness :
    exOk (runSetup fun _ => none) = true ↔
      (fun _ => (none : Option String)) "README.md" ≠ none :=
  scripts_error_iff_underlying_fails.1 (fun _ => none)

/-- C8: applying the style table modifies only the sixteen keys it
assigns; every other key keeps its prior value. -/
theorem applyStyle_frame_only_assigned (cfg : RCConfig) (q : String)
    (h : q ∉ styleKeys) : applyStyle cfg q = cfg q :=
  applyStyle_frame cfg q h

theorem applyStyle_frame_only_assigned_witness :
    "font.size" ∉ styleKeys ∧ applyStyle cfg0 "font.size" = cfg0 "font.size" :=
  ⟨by decide, applyStyle_frame_only_assigned cfg0 "font.size" (by decide)⟩

/-- C9: each key is assigned exactly once (the key list has no
duplicates), and applying the style table is idempotent: from any
initial configuration, applying it twice equals applying it once. -/
theorem applyStyle_idempotent :
    styleKeys.Nodup
    ∧ ∀ cfg : RCConfig, applyStyle (applyStyle cfg) = applyStyle cfg :=
  ⟨by decide, fun cfg => applyStyle_idem_aux cfg⟩

/-- C10: the setup-time and install-time dependency lists are
identical — the same five package names in the same order. -/
theorem setup_install_requires_identical :
    setup_requires = install_requires
    ∧ install_requires = ["numpy", "scipy", "pylj", "matplotlib", "jupyter"] :=
  ⟨rfl, rfl⟩

theorem styleTable_roundtrips_each_literal_witness :
    applyStyle cfg0 "xtick.labelsize" = RCVal.num 16
    ∧ applyStyle cfg0 "ytick.labelsize" = RCVal.num 16
    ∧ applyStyle cfg0 "axes.facecolor" = RCVal.str "w"
    ∧ applyStyle cfg0 "lines.linewidth" = RCVal.num 4
    ∧ applyStyle cfg0 "axes.grid" = RCVal.bool true
    ∧ applyStyle cfg0 "grid.color" = RCVal.rgb 0.8 0.8 0.8
    ∧ applyStyle cfg0 "xtick.top" = RCVal.bool false
    ∧ applyStyle cfg0 "xtick.bottom" = RCVal.bool true
    ∧ applyStyle cfg0 "ytick.left" = RCVal.bool true
    ∧ applyStyle cfg0 "grid.linestyle" = RCVal.str "--"
    ∧ applyStyle cfg0 "legend.fontsize" = RCVal.num 12
    ∧ applyStyle cfg0 "legend.facecolor" = RCVal.nums [1, 1, 1]
    ∧ applyStyle cfg0 "legend.framealpha" = RCVal.num 0.75
    ∧ applyStyle cfg0 "axes.labelsize" = RCVal.num 16
    ∧ applyStyle cfg0 "axes.linewidth" = RCVal.num 1
    ∧ applyStyle cfg0 "axes.edgecolor" = RCVal.str "k" :=
  styleTable_roundtrips_each_literal cfg0

theorem manifest_name_version_nonempty_witness :
    (sim_and_scat_setup "").name ≠ "" ∧ (sim_and_scat_setup "").version ≠ "" :=
  manifest_name_version_nonempty ""

theorem applyStyle_idempotent_witness :
    styleKeys.Nodup ∧ applyStyle (applyStyle cfg0) = applyStyle cfg0 :=
  ⟨applyStyle_idempotent.1, applyStyle_idempotent.2 cfg0⟩
